import Mathlib

/-!
Shallow embedding of the quoting/risk decision engine of the
market-maker bot (`src/mm/bot.py`), together with theorems checking the
specification's claims about it.

Prices and quantities are modelled as rationals (the Python code computes
tick rounding in `Decimal` arithmetic and everything else in binary
floats; the claims under scrutiny are about the real-arithmetic content
of those computations).  Stateful methods of the `MarketMaker` class are
modelled as pure functions taking the mutable fields (`QuoteState`) and
the results of venue calls (an environment record) explicitly.
-/

namespace MM

/-- Integer part of a rational, rounding toward zero: this is what
Python's `Decimal.to_integral_value(ROUND_DOWN)` computes. -/
def truncToward (q : ℚ) : ℤ := if 0 ≤ q then ⌊q⌋ else ⌈q⌉

/-- Total tick rounding: `(v / t).to_integral_value(ROUND_DOWN) * t`
for a nonzero tick. -/
def rnd (v t : ℚ) : ℚ := (truncToward (v / t) : ℚ) * t

/-- The only failure mode of `MarketMaker._round`: `Decimal` division
raises `DivisionByZero` when the tick is zero.  (A negative tick divides
fine in `Decimal`.) -/
inductive RoundError
  | divisionByZero
deriving DecidableEq, Repr

/-- Model of `MarketMaker._round(value, tick)` (bot.py:28-32): converts both
arguments to `Decimal`, divides, truncates toward zero with
`ROUND_DOWN`, multiplies back by the tick.  Division by a zero tick
raises; any nonzero tick (negative included) succeeds. -/
def _round (value tick : ℚ) : Except RoundError ℚ :=
  if tick = 0 then .error .divisionByZero
  else .ok (rnd value tick)

/-- A price or quantity is aligned to a tick when it is an integer
multiple of it. -/
def isTickMultiple (x t : ℚ) : Prop := ∃ k : ℤ, x = (k : ℚ) * t

/-- Rounding with `rnd` always lands on a tick multiple. -/
theorem rnd_isTickMultiple (v t : ℚ) : isTickMultiple (rnd v t) t :=
  ⟨truncToward (v / t), rfl⟩

/-! ### Constants hard-coded in `bot.py` -/

/-- Constant `0.0001`, the epsilon below which a position counts as flat. -/
def qtyEpsilon : ℚ := 1 / 10000

/-- Constant `0.08`, the take-profit PnL threshold (bot.py:68). -/
def takeProfitUsd : ℚ := 8 / 100

/-- Constant `0.5`, the favorable-move percentage threshold (bot.py:74). -/
def favorableMovePct : ℚ := 1 / 2

/-- Constant `PROFIT_TARGET = 0.05` in the loss-protection branch (bot.py:262). -/
def lossProtectionTargetUsd : ℚ := 1 / 20

/-- Constant `COLLATERAL_USD = 100.0` (bot.py:110). -/
def collateralUsd : ℚ := 100

/-- Constant `MAX_LEVERAGE = 8.0` (bot.py:111). -/
def maxLeverage : ℚ := 8

/-- Constant `STOP_THRESHOLD = 0.6` (bot.py:112). -/
def inventoryStopFraction : ℚ := 3 / 5

/-- Constant `REFERENCE_ETH_PRICE = 2000.0` (bot.py:113). -/
def referencePrice : ℚ := 2000

/-! ### Data model -/

/-- The configuration fields the bot logic reads (`Config` in
config.py, restricted to what `MarketMaker` uses). -/
structure Config where
  spread_bps : ℚ
  order_size_usd : ℚ
  dry_run : Bool
deriving DecidableEq, Repr

/-- Tick sizes loaded once at startup. -/
structure Ticks where
  price_tick : ℚ
  qty_tick : ℚ
deriving DecidableEq, Repr

/-- The mutable fields of `MarketMaker`: `current_bid_price`,
`current_ask_price` (None until the first confirmed placement) and
`last_position_qty`. -/
structure QuoteState where
  current_bid_price : Option ℚ
  current_ask_price : Option ℚ
  last_position_qty : ℚ
deriving DecidableEq, Repr

/-- Order side. -/
inductive Side
  | buy
  | sell
deriving DecidableEq, Repr

/-- The arguments of one `client.create_order(symbol, side, price,
quantity)` call. -/
structure OrderReq where
  side : Side
  price : ℚ
  quantity : ℚ
deriving DecidableEq, Repr

/-! ### Risk controller -/

/-- Model of `MarketMaker._should_take_profit` (bot.py:55-80). -/
def _should_take_profit (position_qty mark_price avg_entry_price : ℚ) : Bool :=
  if |position_qty| < qtyEpsilon ∨ avg_entry_price = 0 then false
  else if position_qty * (mark_price - avg_entry_price) > takeProfitUsd then true
  else
    let price_move_pct := (mark_price - avg_entry_price) / avg_entry_price * 100
    decide ((position_qty > 0 ∧ price_move_pct > favorableMovePct) ∨
            (position_qty < 0 ∧ price_move_pct < -favorableMovePct))

/-- Variant of `MarketMaker._should_take_profit` with the division site made
explicit: returns `none` exactly when the Python expression
`(mark_price - avg_entry_price) / avg_entry_price` would raise
`ZeroDivisionError`, i.e. when control reaches that line with
`avg_entry_price = 0`. -/
def _should_take_profit_checked (position_qty mark_price avg_entry_price : ℚ) :
    Option Bool :=
  if |position_qty| < qtyEpsilon ∨ avg_entry_price = 0 then some false
  else if position_qty * (mark_price - avg_entry_price) > takeProfitUsd then some true
  else if avg_entry_price = 0 then none
  else
    let price_move_pct := (mark_price - avg_entry_price) / avg_entry_price * 100
    some (decide ((position_qty > 0 ∧ price_move_pct > favorableMovePct) ∨
                  (position_qty < 0 ∧ price_move_pct < -favorableMovePct)))

/-- Model of `MarketMaker._should_stop_quoting` (bot.py:104-125).  The
`mark_price` argument is taken but deliberately unused: the stop works
off the fixed reference price. -/
def _should_stop_quoting (position_qty mark_price : ℚ) : Bool :=
  let max_notional := collateralUsd * maxLeverage
  let max_position_eth := max_notional / referencePrice
  let stop_position := max_position_eth * inventoryStopFraction
  decide (|position_qty| > stop_position)

/-! ### Quote engine -/

/-- Model of `MarketMaker._should_update_quotes` (bot.py:204-228). -/
def _should_update_quotes (st : QuoteState) (qty_tick mark_price position_qty : ℚ) :
    Bool :=
  match st.current_bid_price, st.current_ask_price with
  | some bid, some ask =>
    if |position_qty - st.last_position_qty| > qty_tick * 2 then true
    else
      let spread_width := ask - bid
      let price_move_threshold := spread_width * (3 / 5)
      if mark_price > ask + price_move_threshold then true
      else if mark_price < bid - price_move_threshold then true
      else false
  | _, _ => true

/-- Base bid price: `round(mark_price * (1 - spread_bps / 10000), price_tick)`
(bot.py:249). -/
def baseBid (cfg : Config) (tk : Ticks) (mark_price : ℚ) : ℚ :=
  rnd (mark_price * (1 - cfg.spread_bps / 10000)) tk.price_tick

/-- Base ask price: `round(mark_price * (1 + spread_bps / 10000), price_tick)`
(bot.py:250). -/
def baseAsk (cfg : Config) (tk : Ticks) (mark_price : ℚ) : ℚ :=
  rnd (mark_price * (1 + cfg.spread_bps / 10000)) tk.price_tick

/-- Pre-rounding loss-protection bid for a short in loss:
`avg_entry_price - PROFIT_TARGET / abs(position_qty)` (bot.py:263,269). -/
def shortProtBid (avg_entry_price abs_qty : ℚ) : ℚ :=
  avg_entry_price - lossProtectionTargetUsd / abs_qty

/-- Pre-rounding loss-protection ask for a long in loss:
`avg_entry_price + PROFIT_TARGET / abs(position_qty)` (bot.py:263,282). -/
def longProtAsk (avg_entry_price abs_qty : ℚ) : ℚ :=
  avg_entry_price + lossProtectionTargetUsd / abs_qty

/-- The four order parameters computed by `MarketMaker._place_quotes`
before submission. -/
structure Quotes where
  bid_price : ℚ
  bid_quantity : ℚ
  ask_price : ℚ
  ask_quantity : ℚ
deriving DecidableEq, Repr

/-- Price/size computation of `MarketMaker._place_quotes`
(bot.py:238-289): base symmetric quotes, then the dynamic
loss-protection override of the closing side (and widening of the
opening side) when the position is in loss. -/
def computeQuotes (cfg : Config) (tk : Ticks)
    (mark_price position_qty avg_entry_price : ℚ) : Quotes :=
  let unrealized_pnl : ℚ :=
    if |position_qty| > qtyEpsilon ∧ avg_entry_price > 0 then
      position_qty * (mark_price - avg_entry_price)
    else 0
  let bid_price := baseBid cfg tk mark_price
  let ask_price := baseAsk cfg tk mark_price
  let mid_price := (bid_price + ask_price) / 2
  let bid_quantity := rnd (cfg.order_size_usd / mid_price) tk.qty_tick
  if unrealized_pnl < 0 ∧ |position_qty| > qtyEpsilon then
    if position_qty < 0 then
      if bid_price > avg_entry_price then
        { bid_price := rnd (shortProtBid avg_entry_price |position_qty|) tk.price_tick
          bid_quantity := rnd |position_qty| tk.qty_tick
          ask_price := rnd (mark_price * (1 + cfg.spread_bps * 2 / 10000)) tk.price_tick
          ask_quantity := bid_quantity }
      else
        { bid_price := bid_price, bid_quantity := bid_quantity
          ask_price := ask_price, ask_quantity := bid_quantity }
    else if position_qty > 0 then
      if ask_price < avg_entry_price then
        { bid_price := rnd (mark_price * (1 - cfg.spread_bps * 2 / 10000)) tk.price_tick
          bid_quantity := bid_quantity
          ask_price := rnd (longProtAsk avg_entry_price |position_qty|) tk.price_tick
          ask_quantity := rnd |position_qty| tk.qty_tick }
      else
        { bid_price := bid_price, bid_quantity := bid_quantity
          ask_price := ask_price, ask_quantity := bid_quantity }
    else
      { bid_price := bid_price, bid_quantity := bid_quantity
        ask_price := ask_price, ask_quantity := bid_quantity }
  else
    { bid_price := bid_price, bid_quantity := bid_quantity
      ask_price := ask_price, ask_quantity := bid_quantity }

/-- Model of `MarketMaker._place_quotes` (bot.py:230-327) as a state transformer:
given the placement outcomes reported by the venue for each side
(`bid_ok`, `ask_ok`), returns the new quote state and the list of
`create_order` calls issued.  In dry-run mode no order is submitted but
both tracked prices are overwritten (bot.py:300-304); otherwise each
side's tracked price is updated only when that side's placement
succeeded (bot.py:314-324). -/
def _place_quotes (cfg : Config) (tk : Ticks) (st : QuoteState)
    (mark_price position_qty avg_entry_price : ℚ) (bid_ok ask_ok : Bool) :
    QuoteState × List OrderReq :=
  let q := computeQuotes cfg tk mark_price position_qty avg_entry_price
  if cfg.dry_run then
    ({ st with current_bid_price := some q.bid_price
               current_ask_price := some q.ask_price }, [])
  else
    ({ st with
        current_bid_price :=
          if bid_ok then some q.bid_price else st.current_bid_price
        current_ask_price :=
          if ask_ok then some q.ask_price else st.current_ask_price },
     [⟨Side.buy, q.bid_price, q.bid_quantity⟩,
      ⟨Side.sell, q.ask_price, q.ask_quantity⟩])

/-- Model of `MarketMaker._close_position` (bot.py:82-101): the `create_order`
call it issues (none when the position is flat).  The side opposes the
position; the price is mark ∓ 0.1% rounded to the price tick; the
quantity is `abs(position_qty)` passed through unrounded. -/
def _close_position (tk : Ticks) (position_qty mark_price : ℚ) : List OrderReq :=
  if |position_qty| < qtyEpsilon then []
  else
    let side := if position_qty > 0 then Side.sell else Side.buy
    let quantity := |position_qty|
    let close_price :=
      if position_qty > 0 then mark_price * (999 / 1000)
      else mark_price * (1001 / 1000)
    [⟨side, rnd close_price tk.price_tick, quantity⟩]

/-! ### Order lifecycle manager -/

/-- One open order as returned by `get_open_orders`: a dict that may or
may not carry an `order_id` key (bot.py:142 filters on key presence). -/
structure OpenOrder where
  order_id : Option ℕ
deriving DecidableEq, Repr

/-- Outcome of one `client.cancel_order` call, as observed through
`asyncio.gather(..., return_exceptions=True)`: a normal return, an
exception carrying an HTTP `status` attribute, or an exception without
one. -/
inductive CancelResult
  | ok
  | errStatus (status : ℕ)
  | errNoStatus
deriving DecidableEq, Repr

/-- The per-result test of bot.py:159-166: a non-exception counts as
success, an exception with `status == 400` counts as success
(order already filled/cancelled), anything else is a real failure. -/
def cancelOkOr400 : CancelResult → Bool
  | .ok => true
  | .errStatus s => s == 400
  | .errNoStatus => false

/-- Venue responses consumed by one `_cancel_all_orders` run: the
initial open-order fetch, the cancel outcome per order id, the
post-cancel verification fetch, and the final check fetch (read only
when a retry batch was issued). -/
structure CancelEnv where
  open_orders : List OpenOrder
  cancel : ℕ → CancelResult
  remaining_orders : List OpenOrder
  final_check : List OpenOrder

/-- Model of `MarketMaker._cancel_all_orders` (bot.py:128-202): `true` iff the
whole cancel batch is considered successful.  Empty fetch → success;
orders without extractable ids → failure; any non-400 cancel failure →
failure; then verification: if orders remain, retry their cancellation
once (outcomes ignored) and fail only if the final check still shows
orders. -/
def _cancel_all_orders (env : CancelEnv) : Bool :=
  match env.open_orders with
  | [] => true
  | _ =>
    let order_ids := env.open_orders.filterMap (·.order_id)
    if order_ids.isEmpty then false
    else if ¬ (order_ids.all fun i => cancelOkOr400 (env.cancel i)) then false
    else
      match env.remaining_orders with
      | [] => true
      | _ =>
        let remaining_ids := env.remaining_orders.filterMap (·.order_id)
        if remaining_ids.isEmpty then true
        else if env.final_check.isEmpty then true
        else false

/-! ### Control loop -/

/-- The venue-dependent outcomes one iteration of `MarketMaker.run`
can observe: the sampled market state and the success reports of the
cancel batch and of each placement side. -/
structure TickEnv where
  mark_price : ℚ
  position_qty : ℚ
  avg_entry_price : ℚ
  cancel_ok : Bool
  bid_ok : Bool
  ask_ok : Bool

/-- One iteration of the main loop of `MarketMaker.run`
(bot.py:340-388), restricted to its state effect and the
`create_order` calls it issues.  Take-profit short-circuits into a
close order; the inventory stop short-circuits into cancel-only;
otherwise quotes are re-evaluated and, when a requote is needed, new
orders are placed and `last_position_qty` refreshed only if the cancel
batch reported success (bot.py:363-375). -/
def runTick (cfg : Config) (tk : Ticks) (st : QuoteState) (env : TickEnv) :
    QuoteState × List OrderReq :=
  if _should_take_profit env.position_qty env.mark_price env.avg_entry_price then
    (st, _close_position tk env.position_qty env.mark_price)
  else if _should_stop_quoting env.position_qty env.mark_price then
    (st, [])
  else if _should_update_quotes st tk.qty_tick env.mark_price env.position_qty then
    if env.cancel_ok then
      let r := _place_quotes cfg tk st env.mark_price env.position_qty
                 env.avg_entry_price env.bid_ok env.ask_ok
      ({ r.1 with last_position_qty := env.position_qty }, r.2)
    else (st, [])
  else (st, [])

/-! ### Theorems about the spec's claims -/

/-- Claim C6: `_should_take_profit` returns false when the position is
below the epsilon or the average entry is zero, and otherwise returns
true exactly when the unrealized PnL exceeds `takeProfitUsd = 0.08` or
the percentage move `(mark - avgEntry) / avgEntry * 100` exceeds
`favorableMovePct = 0.5` in the position's favorable direction. -/
theorem shouldTakeProfit_iff (qty mark avg : ℚ) :
    _should_take_profit qty mark avg = true ↔
      ¬(|qty| < qtyEpsilon ∨ avg = 0) ∧
        (qty * (mark - avg) > takeProfitUsd ∨
         (qty > 0 ∧ (mark - avg) / avg * 100 > favorableMovePct) ∨
         (qty < 0 ∧ (mark - avg) / avg * 100 < -favorableMovePct)) := by
  unfold _should_take_profit
  split_ifs with h1 h2
  · simp [h1]
  · simp only [true_iff]
    exact ⟨h1, Or.inl h2⟩
  · simp only [decide_eq_true_eq]
    constructor
    · intro h
      exact ⟨h1, Or.inr h⟩
    · rintro ⟨-, h | h⟩
      · exact absurd h h2
      · exact h

/-- Claim C10: the favorable-move division in `_should_take_profit` is
reached only after the early guard has ruled out `avg_entry_price = 0`,
so the function is total: the division-site-checked variant never
returns `none` and agrees with the plain function everywhere. -/
theorem shouldTakeProfit_total (qty mark avg : ℚ) :
    _should_take_profit_checked qty mark avg = some (_should_take_profit qty mark avg) := by
  unfold _should_take_profit_checked _should_take_profit
  split_ifs with h1 h2 h3
  · rfl
  · rfl
  · exact absurd (Or.inr h3) h1
  · rfl

/-- Claim C7: `_should_stop_quoting` is true exactly when
`|qty| > 100 * 8 / 2000 * 0.6 = 0.24`; in particular it fires at
`qty = 0.25`, not at `qty = 0.20`, and its value never depends on the
mark-price argument. -/
theorem shouldStopQuoting_spec :
    (∀ qty mark, _should_stop_quoting qty mark = true ↔ |qty| > 6 / 25) ∧
    _should_stop_quoting (1 / 4) 2000 = true ∧
    _should_stop_quoting (1 / 5) 2000 = false ∧
    (∀ qty mark mark', _should_stop_quoting qty mark = _should_stop_quoting qty mark') := by
  have hmain : ∀ qty mark, _should_stop_quoting qty mark = true ↔ |qty| > 6 / 25 := by
    intro qty mark
    unfold _should_stop_quoting
    simp only [decide_eq_true_eq, collateralUsd, maxLeverage, referencePrice,
      inventoryStopFraction]
    norm_num
  refine ⟨hmain, ?_, ?_, fun _ _ _ => rfl⟩
  · refine (hmain _ _).mpr ?_
    rw [abs_of_pos (by norm_num : (0 : ℚ) < 1 / 4)]
    norm_num
  · rw [Bool.eq_false_iff]
    intro hT
    have h5 := (hmain (1 / 5) 2000).mp hT
    rw [abs_of_pos (by norm_num : (0 : ℚ) < 1 / 5)] at h5
    norm_num at h5

/-- Claim C8: `_should_update_quotes` is true exactly when a quote side
is unset, or the position moved by more than two quantity ticks since
the last requote, or the mark price left the band extending 60% of the
current spread width beyond either quote; with quotes 1995/2005 a mark
of 2011 does not trigger and a mark of 2011.1 does. -/
theorem shouldUpdateQuotes_iff :
    (∀ st qty_tick mark qty,
      _should_update_quotes st qty_tick mark qty = true ↔
        st.current_bid_price = none ∨ st.current_ask_price = none ∨
        (∃ bid ask, st.current_bid_price = some bid ∧ st.current_ask_price = some ask ∧
          (|qty - st.last_position_qty| > qty_tick * 2 ∨
           mark > ask + (ask - bid) * (3 / 5) ∨
           mark < bid - (ask - bid) * (3 / 5)))) ∧
    _should_update_quotes ⟨some 1995, some 2005, 0⟩ (1 / 1000) 2011 0 = false ∧
    _should_update_quotes ⟨some 1995, some 2005, 0⟩ (1 / 1000) (20111 / 10) 0 = true := by
  have hmain : ∀ st qty_tick mark qty,
      _should_update_quotes st qty_tick mark qty = true ↔
        st.current_bid_price = none ∨ st.current_ask_price = none ∨
        (∃ bid ask, st.current_bid_price = some bid ∧ st.current_ask_price = some ask ∧
          (|qty - st.last_position_qty| > qty_tick * 2 ∨
           mark > ask + (ask - bid) * (3 / 5) ∨
           mark < bid - (ask - bid) * (3 / 5))) := by
    intro st qty_tick mark qty
    obtain ⟨bid?, ask?, last⟩ := st
    cases bid? with
    | none => simp [_should_update_quotes]
    | some bid =>
      cases ask? with
      | none => simp [_should_update_quotes]
      | some ask =>
        simp only [_should_update_quotes]
        split_ifs with h1 h2 h3
        · simp only [true_iff]
          exact Or.inr (Or.inr ⟨bid, ask, rfl, rfl, Or.inl h1⟩)
        · simp only [true_iff]
          exact Or.inr (Or.inr ⟨bid, ask, rfl, rfl, Or.inr (Or.inl h2)⟩)
        · simp only [true_iff]
          exact Or.inr (Or.inr ⟨bid, ask, rfl, rfl, Or.inr (Or.inr h3)⟩)
        · simp only [Bool.false_eq_true, false_iff]
          rintro (h | h | ⟨b, a, hb, ha, hc⟩)
          · exact h.elim
          · exact h.elim
          · simp only [Option.some.injEq] at hb ha
            subst hb
            subst ha
            rcases hc with h | h | h
            · exact h1 h
            · exact h2 h
            · exact h3 h
  refine ⟨hmain, ?_, ?_⟩
  · rw [Bool.eq_false_iff]
    intro hT
    rcases (hmain _ _ _ _).mp hT with h | h | ⟨b, a, hb, ha, hc⟩
    · exact Option.noConfusion h
    · exact Option.noConfusion h
    · simp only [Option.some.injEq] at hb ha
      subst hb
      subst ha
      rcases hc with h | h | h <;> norm_num at h
  · exact (hmain _ _ _ _).mpr
      (Or.inr (Or.inr ⟨1995, 2005, rfl, rfl, Or.inr (Or.inl (by norm_num))⟩))

/-- Claim C9 counterexample: the claim says `_round` fails for every
tick `t ≤ 0`, but a negative tick divides fine in `Decimal` arithmetic:
`_round(1, -0.01)` truncates `1 / -0.01 = -100` toward zero and returns
`-100 * -0.01 = 1` without failing. -/
theorem round_negative_tick_counterexample :
    _round 1 (-(1 / 100)) = .ok 1 := by
  have ht : (-(1 / 100) : ℚ) ≠ 0 := by norm_num
  have hdiv : (1 : ℚ) / (-(1 / 100)) = -100 := by norm_num
  have htru : truncToward ((1 : ℚ) / (-(1 / 100))) = -100 := by
    rw [hdiv]
    unfold truncToward
    rw [if_neg (by norm_num)]
    exact_mod_cast Int.ceil_intCast (α := ℚ) (-100)
  unfold _round
  rw [if_neg ht]
  unfold rnd
  rw [htru]
  norm_num

/-- Claim C9 amended: `_round` fails (with the `Decimal` division-by-zero
error) exactly when the tick is zero; for any nonzero tick — negative
ticks included — it returns `truncToward (v / t) * t`, and for a
positive tick and nonnegative value that result is the greatest tick
multiple not exceeding the value. -/
theorem round_characterization :
    (∀ v t : ℚ, t = 0 → _round v t = .error .divisionByZero) ∧
    (∀ v t : ℚ, t ≠ 0 → _round v t = .ok (rnd v t)) ∧
    (∀ v t : ℚ, 0 < t → 0 ≤ v →
      isTickMultiple (rnd v t) t ∧ rnd v t ≤ v ∧ v < rnd v t + t) := by
  refine ⟨fun v t ht => by rw [_round, if_pos ht],
          fun v t ht => by rw [_round, if_neg ht],
          fun v t ht hv => ?_⟩
  have htru : truncToward (v / t) = ⌊v / t⌋ := by
    unfold truncToward
    rw [if_pos (div_nonneg hv ht.le)]
  refine ⟨rnd_isTickMultiple v t, ?_, ?_⟩
  · rw [rnd, htru]
    calc (⌊v / t⌋ : ℚ) * t ≤ (v / t) * t :=
          mul_le_mul_of_nonneg_right (Int.floor_le _) ht.le
      _ = v := div_mul_cancel₀ v (ne_of_gt ht)
  · rw [rnd, htru]
    calc v = (v / t) * t := (div_mul_cancel₀ v (ne_of_gt ht)).symm
      _ < ((⌊v / t⌋ : ℚ) + 1) * t :=
          mul_lt_mul_of_pos_right (Int.lt_floor_add_one _) ht
      _ = (⌊v / t⌋ : ℚ) * t + t := by ring

/-- Witness for `round_characterization` at `v = 37/10`, `t = 1/2`
(and the failing tick `t = 0`). -/
theorem round_characterization_witness :
    _round (37 / 10) 0 = .error .divisionByZero ∧
    (isTickMultiple (rnd (37 / 10) (1 / 2)) (1 / 2) ∧
     rnd (37 / 10) (1 / 2) ≤ 37 / 10 ∧ (37 / 10 : ℚ) < rnd (37 / 10) (1 / 2) + 1 / 2) :=
  ⟨round_characterization.1 (37 / 10) 0 rfl,
   round_characterization.2.2 (37 / 10) (1 / 2) (by norm_num) (by norm_num)⟩

/-- Claim C2: when loss protection triggers (position in loss, above the
flat epsilon, and the closing side would otherwise close at a loss), the
adjusted closing price before tick rounding is `avgEntry ∓
lossProtectionTargetUsd / |qty|` and the closing quantity before tick
rounding is the full `|qty|`, so closing the entire position at the
adjusted price yields PnL exactly `0.05` pre-rounding; in particular for
`qty = -0.1`, `avgEntry = 2000` the adjusted bid is `1999.5`. -/
theorem lossProtection_exact (cfg : Config) (tk : Ticks) (mark qty avg : ℚ)
    (havg : 0 < avg) (hqty : qtyEpsilon < |qty|)
    (hloss : qty * (mark - avg) < 0) :
    (qty < 0 → baseBid cfg tk mark > avg →
      (computeQuotes cfg tk mark qty avg).bid_price
          = rnd (shortProtBid avg |qty|) tk.price_tick ∧
      (computeQuotes cfg tk mark qty avg).bid_quantity = rnd |qty| tk.qty_tick ∧
      shortProtBid avg |qty| = avg - lossProtectionTargetUsd / |qty| ∧
      |qty| * (avg - shortProtBid avg |qty|) = lossProtectionTargetUsd) ∧
    (qty > 0 → baseAsk cfg tk mark < avg →
      (computeQuotes cfg tk mark qty avg).ask_price
          = rnd (longProtAsk avg |qty|) tk.price_tick ∧
      (computeQuotes cfg tk mark qty avg).ask_quantity = rnd |qty| tk.qty_tick ∧
      longProtAsk avg |qty| = avg + lossProtectionTargetUsd / |qty| ∧
      qty * (longProtAsk avg |qty| - avg) = lossProtectionTargetUsd) ∧
    shortProtBid 2000 (1 / 10) = 1999 + 1 / 2 := by
  have hq0 : |qty| ≠ 0 := by
    have : (0 : ℚ) < qtyEpsilon := by norm_num [qtyEpsilon]
    exact ne_of_gt (lt_trans this hqty)
  have hpnl :
      (if |qty| > qtyEpsilon ∧ avg > 0 then qty * (mark - avg) else 0) = qty * (mark - avg) :=
    if_pos ⟨hqty, havg⟩
  refine ⟨fun hneg hbid => ?_, fun hpos hask => ?_, ?_⟩
  · have hcq : computeQuotes cfg tk mark qty avg =
        { bid_price := rnd (shortProtBid avg |qty|) tk.price_tick
          bid_quantity := rnd |qty| tk.qty_tick
          ask_price := rnd (mark * (1 + cfg.spread_bps * 2 / 10000)) tk.price_tick
          ask_quantity :=
            rnd (cfg.order_size_usd / ((baseBid cfg tk mark + baseAsk cfg tk mark) / 2))
              tk.qty_tick } := by
      unfold computeQuotes
      rw [hpnl, if_pos ⟨hloss, hqty⟩, if_pos hneg, if_pos hbid]
    refine ⟨by rw [hcq], by rw [hcq], rfl, ?_⟩
    unfold shortProtBid
    field_simp
  · have hnotneg : ¬ qty < 0 := not_lt.mpr hpos.le
    have hcq : computeQuotes cfg tk mark qty avg =
        { bid_price := rnd (mark * (1 - cfg.spread_bps * 2 / 10000)) tk.price_tick
          bid_quantity :=
            rnd (cfg.order_size_usd / ((baseBid cfg tk mark + baseAsk cfg tk mark) / 2))
              tk.qty_tick
          ask_price := rnd (longProtAsk avg |qty|) tk.price_tick
          ask_quantity := rnd |qty| tk.qty_tick } := by
      unfold computeQuotes
      rw [hpnl, if_pos ⟨hloss, hqty⟩, if_neg hnotneg, if_pos hpos, if_pos hask]
    refine ⟨by rw [hcq], by rw [hcq], rfl, ?_⟩
    unfold longProtAsk
    rw [abs_of_pos hpos]
    field_simp
    ring
  · unfold shortProtBid lossProtectionTargetUsd
    norm_num

/-- Witness for `lossProtection_exact`: the spec's own example, a short
of `qty = -0.1` entered at `2000` marked at `2100`. -/
theorem lossProtection_exact_witness :
    (computeQuotes ⟨10, 50, false⟩ ⟨1 / 100, 1 / 1000⟩ 2100 (-(1 / 10)) 2000).bid_price
        = rnd (shortProtBid 2000 |(-(1 / 10) : ℚ)|) (1 / 100) ∧
    (computeQuotes ⟨10, 50, false⟩ ⟨1 / 100, 1 / 1000⟩ 2100 (-(1 / 10)) 2000).bid_quantity
        = rnd |(-(1 / 10) : ℚ)| (1 / 1000) ∧
    shortProtBid 2000 |(-(1 / 10) : ℚ)|
        = 2000 - lossProtectionTargetUsd / |(-(1 / 10) : ℚ)| ∧
    |(-(1 / 10) : ℚ)| * (2000 - shortProtBid 2000 |(-(1 / 10) : ℚ)|)
        = lossProtectionTargetUsd := by
  have habs : |(-(1 / 10) : ℚ)| = 1 / 10 := by
    rw [abs_neg]
    exact abs_of_pos (by norm_num)
  have hbid : baseBid ⟨10, 50, false⟩ ⟨1 / 100, 1 / 1000⟩ 2100 > 2000 := by
    unfold baseBid rnd truncToward
    norm_num
  exact (lossProtection_exact ⟨10, 50, false⟩ ⟨1 / 100, 1 / 1000⟩ 2100 (-(1 / 10)) 2000
      (by norm_num) (by rw [habs]; norm_num [qtyEpsilon]) (by norm_num)).1
      (by norm_num) hbid

/-- Claim C5: after a (non-dry-run) `_place_quotes`, the tracked bid
price becomes the new bid exactly when the bid placement succeeded and
is left unchanged otherwise, independently for the ask side, and
`last_position_qty` is untouched by placement itself. -/
theorem placeQuotes_updates_iff (cfg : Config) (tk : Ticks) (st : QuoteState)
    (mark qty avg : ℚ) (bid_ok ask_ok : Bool) (hdry : cfg.dry_run = false) :
    ((_place_quotes cfg tk st mark qty avg bid_ok ask_ok).1.current_bid_price =
      if bid_ok then some (computeQuotes cfg tk mark qty avg).bid_price
      else st.current_bid_price) ∧
    ((_place_quotes cfg tk st mark qty avg bid_ok ask_ok).1.current_ask_price =
      if ask_ok then some (computeQuotes cfg tk mark qty avg).ask_price
      else st.current_ask_price) ∧
    (_place_quotes cfg tk st mark qty avg bid_ok ask_ok).1.last_position_qty =
      st.last_position_qty := by
  unfold _place_quotes
  rw [if_neg (by rw [hdry]; exact Bool.false_ne_true)]
  exact ⟨rfl, rfl, rfl⟩

/-- Witness for `placeQuotes_updates_iff`: a successful bid and a failed
ask against a fresh state leave the ask side at `none` and set only the
bid side. -/
theorem placeQuotes_updates_iff_witness :
    (_place_quotes ⟨10, 50, false⟩ ⟨1 / 100, 1 / 1000⟩ ⟨none, none, 0⟩
        2000 0 0 true false).1.current_bid_price =
      some (computeQuotes ⟨10, 50, false⟩ ⟨1 / 100, 1 / 1000⟩ 2000 0 0).bid_price ∧
    (_place_quotes ⟨10, 50, false⟩ ⟨1 / 100, 1 / 1000⟩ ⟨none, none, 0⟩
        2000 0 0 true false).1.current_ask_price = none ∧
    (_place_quotes ⟨10, 50, false⟩ ⟨1 / 100, 1 / 1000⟩ ⟨none, none, 0⟩
        2000 0 0 true false).1.last_position_qty = 0 := by
  have h := placeQuotes_updates_iff ⟨10, 50, false⟩ ⟨1 / 100, 1 / 1000⟩ ⟨none, none, 0⟩
      2000 0 0 true false rfl
  refine ⟨?_, ?_, h.2.2⟩
  · rw [h.1, if_pos rfl]
  · rw [h.2.1, if_neg Bool.false_ne_true]

/-- Claim C1: in a tick that reaches quote evaluation (take-profit and
inventory stop not triggered, requote needed, not a dry run), new orders
are submitted and `last_position_qty` is refreshed exactly when the
cancel batch reported success; on cancel failure the tick leaves the
whole state untouched and submits nothing. -/
theorem tick_cancel_gates_placement (cfg : Config) (tk : Ticks) (st : QuoteState)
    (env : TickEnv) (hdry : cfg.dry_run = false)
    (htp : _should_take_profit env.position_qty env.mark_price env.avg_entry_price = false)
    (hstop : _should_stop_quoting env.position_qty env.mark_price = false)
    (hupd : _should_update_quotes st tk.qty_tick env.mark_price env.position_qty = true) :
    (((runTick cfg tk st env).2 ≠ [] ∧
        (runTick cfg tk st env).1.last_position_qty = env.position_qty) ↔
      env.cancel_ok = true) ∧
    (env.cancel_ok = false → runTick cfg tk st env = (st, [])) := by
  have hrt : runTick cfg tk st env =
      if env.cancel_ok then
        (let r := _place_quotes cfg tk st env.mark_price env.position_qty
            env.avg_entry_price env.bid_ok env.ask_ok
         ({ r.1 with last_position_qty := env.position_qty }, r.2))
      else (st, []) := by
    unfold runTick
    rw [if_neg (by rw [htp]; exact Bool.false_ne_true),
        if_neg (by rw [hstop]; exact Bool.false_ne_true),
        if_pos hupd]
  cases hc : env.cancel_ok with
  | false =>
    rw [hc] at hrt
    rw [if_neg Bool.false_ne_true] at hrt
    refine ⟨?_, fun _ => hrt⟩
    simp only [hrt, Bool.false_eq_true, iff_false, not_and]
    intro hne
    exact absurd rfl hne
  | true =>
    rw [hc] at hrt
    rw [if_pos rfl] at hrt
    refine ⟨?_, fun h => absurd h (by simp)⟩
    simp only [iff_true]
    constructor
    · rw [hrt]
      unfold _place_quotes
      rw [if_neg (by rw [hdry]; exact Bool.false_ne_true)]
      exact List.cons_ne_nil _ _
    · rw [hrt]

/-- Witness for `tick_cancel_gates_placement`: a flat position on the
first tick (no quotes tracked yet) with a successful cancel batch. -/
theorem tick_cancel_gates_placement_witness :
    ((runTick ⟨10, 50, false⟩ ⟨1 / 100, 1 / 1000⟩ ⟨none, none, 0⟩
          ⟨2000, 0, 0, true, true, true⟩).2 ≠ [] ∧
      (runTick ⟨10, 50, false⟩ ⟨1 / 100, 1 / 1000⟩ ⟨none, none, 0⟩
          ⟨2000, 0, 0, true, true, true⟩).1.last_position_qty = 0) := by
  have htp : _should_take_profit (0 : ℚ) 2000 0 = false := by
    unfold _should_take_profit
    rw [if_pos (Or.inr rfl)]
  have hstop : _should_stop_quoting (0 : ℚ) 2000 = false := by
    unfold _should_stop_quoting
    simp only [decide_eq_false_iff_not, collateralUsd, maxLeverage, referencePrice,
      inventoryStopFraction, abs_zero, not_lt]
    norm_num
  have h := (tick_cancel_gates_placement ⟨10, 50, false⟩ ⟨1 / 100, 1 / 1000⟩
      ⟨none, none, 0⟩ ⟨2000, 0, 0, true, true, true⟩ rfl htp hstop rfl).1
  exact h.mpr rfl

/-- Claim C3: for venue orders carrying ids, `_cancel_all_orders`
succeeds exactly when the initial open-order fetch is empty, or every
individual cancel succeeded or failed with an HTTP-400 ("already
resolved") error and the post-cancel verification — with its one retry
round — found no remaining orders; equivalently it fails exactly when a
cancel failed with a non-400 error or orders were still present both at
verification and at the final check after the retry. -/
theorem cancelAll_success_iff (env : CancelEnv)
    (hids : ∀ o ∈ env.open_orders, o.order_id ≠ none)
    (hrids : ∀ o ∈ env.remaining_orders, o.order_id ≠ none) :
    _cancel_all_orders env = true ↔
      env.open_orders = [] ∨
      ((∀ i ∈ env.open_orders.filterMap OpenOrder.order_id,
          cancelOkOr400 (env.cancel i) = true) ∧
       (env.remaining_orders = [] ∨ env.final_check = [])) := by
  obtain ⟨opens, cancel, remaining, final⟩ := env
  cases opens with
  | nil => simp [_cancel_all_orders]
  | cons o os =>
    simp only at hids hrids ⊢
    have hone : o.order_id ≠ none := hids o (List.mem_cons_self o os)
    have hne : ((o :: os).filterMap OpenOrder.order_id).isEmpty = false := by
      cases ho : o.order_id with
      | none => exact absurd ho hone
      | some i => simp [List.filterMap_cons, ho]
    simp only [_cancel_all_orders]
    rw [if_neg (show ¬((o :: os).filterMap OpenOrder.order_id).isEmpty = true by
      rw [hne]; exact Bool.false_ne_true)]
    cases hall : ((o :: os).filterMap OpenOrder.order_id).all
        (fun i => cancelOkOr400 (cancel i)) with
    | false =>
      rw [if_pos Bool.false_ne_true]
      simp only [Bool.false_eq_true, false_iff]
      rintro (h | ⟨hall', -⟩)
      · exact List.noConfusion h
      · rw [List.all_eq_true.mpr hall'] at hall
        exact Bool.noConfusion hall
    | true =>
      rw [if_neg (not_not_intro rfl)]
      have hall' := List.all_eq_true.mp hall
      cases remaining with
      | nil =>
        exact iff_of_true rfl (Or.inr ⟨hall', Or.inl rfl⟩)
      | cons r rs =>
        have hrone : r.order_id ≠ none := hrids r (List.mem_cons_self r rs)
        have hrne : ((r :: rs).filterMap OpenOrder.order_id).isEmpty = false := by
          cases hr : r.order_id with
          | none => exact absurd hr hrone
          | some i => simp [List.filterMap_cons, hr]
        rw [if_neg (show ¬((r :: rs).filterMap OpenOrder.order_id).isEmpty = true by
          rw [hrne]; exact Bool.false_ne_true)]
        cases final with
        | nil =>
          exact iff_of_true rfl (Or.inr ⟨hall', Or.inr rfl⟩)
        | cons f fs =>
          refine iff_of_false (fun h => Bool.noConfusion h) ?_
          rintro (h | ⟨-, h | h⟩)
          · exact List.noConfusion h
          · exact List.noConfusion h
          · exact List.noConfusion h

/-- Witness for `cancelAll_success_iff`: a single open order whose
cancel comes back HTTP-400 and a clean verification fetch make the
batch a success. -/
theorem cancelAll_success_iff_witness :
    _cancel_all_orders ⟨[⟨some 1⟩], fun _ => .errStatus 400, [], []⟩ = true := by
  refine (cancelAll_success_iff ⟨[⟨some 1⟩], fun _ => .errStatus 400, [], []⟩
      ?_ ?_).mpr (Or.inr ⟨?_, Or.inl rfl⟩)
  · rintro o ho
    simp only [List.mem_singleton] at ho
    subst ho
    exact Option.noConfusion
  · rintro o ho
    exact absurd ho (List.not_mem_nil o)
  · intro i hi
    rfl

/-- All four order parameters computed by the quote engine are tick
aligned: every branch of `computeQuotes` builds them with `rnd`. -/
theorem computeQuotes_tick_aligned (cfg : Config) (tk : Ticks) (m q a : ℚ) :
    isTickMultiple (computeQuotes cfg tk m q a).bid_price tk.price_tick ∧
    isTickMultiple (computeQuotes cfg tk m q a).ask_price tk.price_tick ∧
    isTickMultiple (computeQuotes cfg tk m q a).bid_quantity tk.qty_tick ∧
    isTickMultiple (computeQuotes cfg tk m q a).ask_quantity tk.qty_tick := by
  simp only [computeQuotes, baseBid, baseAsk]
  split_ifs <;>
    exact ⟨rnd_isTickMultiple _ _, rnd_isTickMultiple _ _,
           rnd_isTickMultiple _ _, rnd_isTickMultiple _ _⟩

/-- Shape of the close-position order: tick-aligned price but the raw
`abs(position_qty)` as quantity. -/
theorem close_position_shape (tk : Ticks) (q m : ℚ) :
    ∀ r ∈ _close_position tk q m,
      isTickMultiple r.price tk.price_tick ∧ r.quantity = |q| := by
  intro r hr
  simp only [_close_position] at hr
  split_ifs at hr
  all_goals
    first
      | exact absurd hr (List.not_mem_nil r)
      | (rw [List.mem_singleton] at hr
         subst hr
         exact ⟨rnd_isTickMultiple _ _, rfl⟩)

/-- Claim C4 amended: every price sent to `create_order` — quoting,
loss protection, and position closing — is an integer multiple of the
price tick (floor-toward-zero rounded), and both quoting quantities are
integer multiples of the quantity tick; but the position-closing order's
quantity is the raw `abs(position_qty)`, not rounded to the quantity
tick (bot.py:89), so it is a tick multiple only when the position
itself is. -/
theorem createOrder_tick_alignment :
    (∀ cfg tk st env, ∀ r ∈ (runTick cfg tk st env).2,
        isTickMultiple r.price tk.price_tick) ∧
    (∀ cfg tk st mark qty avg bid_ok ask_ok,
        ∀ r ∈ (_place_quotes cfg tk st mark qty avg bid_ok ask_ok).2,
          isTickMultiple r.price tk.price_tick ∧
          isTickMultiple r.quantity tk.qty_tick) ∧
    (∀ tk qty mark, ∀ r ∈ _close_position tk qty mark, r.quantity = |qty|) := by
  have hplace : ∀ (cfg : Config) (tk : Ticks) (st : QuoteState)
      (mark qty avg : ℚ) (bid_ok ask_ok : Bool),
      ∀ r ∈ (_place_quotes cfg tk st mark qty avg bid_ok ask_ok).2,
        isTickMultiple r.price tk.price_tick ∧
        isTickMultiple r.quantity tk.qty_tick := by
    intro cfg tk st mark qty avg bid_ok ask_ok r hr
    have hq := computeQuotes_tick_aligned cfg tk mark qty avg
    simp only [_place_quotes] at hr
    by_cases hd : cfg.dry_run = true
    · rw [if_pos hd] at hr
      exact absurd hr (List.not_mem_nil r)
    · rw [if_neg hd] at hr
      rcases List.mem_cons.mp hr with h1 | h2
      · subst h1
        exact ⟨hq.1, hq.2.2.1⟩
      · rw [List.mem_singleton] at h2
        subst h2
        exact ⟨hq.2.1, hq.2.2.2⟩
  refine ⟨?_, hplace, fun tk q m r hr => (close_position_shape tk q m r hr).2⟩
  intro cfg tk st env r hr
  simp only [runTick] at hr
  split_ifs at hr
  · exact (close_position_shape tk env.position_qty env.mark_price r hr).1
  · exact absurd hr (List.not_mem_nil r)
  · exact (hplace cfg tk st env.mark_price env.position_qty env.avg_entry_price
      env.bid_ok env.ask_ok r hr).1
  · exact absurd hr (List.not_mem_nil r)
  · exact absurd hr (List.not_mem_nil r)

/-- Witness for `createOrder_tick_alignment`: the bid order of a
concrete non-dry-run placement. -/
theorem createOrder_tick_alignment_witness :
    isTickMultiple
      (computeQuotes ⟨10, 50, false⟩ ⟨1 / 100, 1 / 1000⟩ 2000 0 0).bid_price (1 / 100) ∧
    isTickMultiple
      (computeQuotes ⟨10, 50, false⟩ ⟨1 / 100, 1 / 1000⟩ 2000 0 0).bid_quantity (1 / 1000) :=
  createOrder_tick_alignment.2.1 ⟨10, 50, false⟩ ⟨1 / 100, 1 / 1000⟩ ⟨none, none, 0⟩
    2000 0 0 true true
    ⟨Side.buy, (computeQuotes ⟨10, 50, false⟩ ⟨1 / 100, 1 / 1000⟩ 2000 0 0).bid_price,
     (computeQuotes ⟨10, 50, false⟩ ⟨1 / 100, 1 / 1000⟩ 2000 0 0).bid_quantity⟩
    (List.mem_cons_self _ _)

/-- Claim C4 counterexample: with quantity tick `0.001` and a position
of `0.0015`, the take-profit path issues a closing order whose quantity
`0.0015` is not an integer multiple of the quantity tick — the code
passes `abs(position_qty)` to `create_order` unrounded. -/
theorem closeOrder_unrounded_counterexample :
    ∃ r ∈ (runTick ⟨10, 50, false⟩ ⟨1 / 100, 1 / 1000⟩ ⟨none, none, 0⟩
        ⟨2000, 3 / 2000, 1000, true, true, true⟩).2,
      ¬ isTickMultiple r.quantity (1 / 1000) := by
  have hq : (0 : ℚ) < 3 / 2000 := by norm_num
  have htp : _should_take_profit (3 / 2000 : ℚ) 2000 1000 = true := by
    unfold _should_take_profit
    rw [abs_of_pos hq]
    rw [if_neg (by norm_num [qtyEpsilon]), if_pos (by norm_num [takeProfitUsd])]
  have hcl : _close_position ⟨1 / 100, 1 / 1000⟩ (3 / 2000) 2000 =
      [⟨Side.sell, rnd (2000 * (999 / 1000)) (1 / 100), 3 / 2000⟩] := by
    simp only [_close_position]
    rw [abs_of_pos hq]
    rw [if_neg (by norm_num [qtyEpsilon]),
        if_pos (by norm_num : (3 / 2000 : ℚ) > 0),
        if_pos (by norm_num : (3 / 2000 : ℚ) > 0)]
  have hrt : (runTick ⟨10, 50, false⟩ ⟨1 / 100, 1 / 1000⟩ ⟨none, none, 0⟩
      ⟨2000, 3 / 2000, 1000, true, true, true⟩).2 =
      _close_position ⟨1 / 100, 1 / 1000⟩ (3 / 2000) 2000 := by
    simp only [runTick]
    rw [if_pos htp]
  refine ⟨⟨Side.sell, rnd (2000 * (999 / 1000)) (1 / 100), 3 / 2000⟩, ?_, ?_⟩
  · rw [hrt, hcl]
    exact List.mem_singleton_self _
  · rintro ⟨k, hk⟩
    have hk2 : (k : ℚ) = 3 / 2 := by
      have h1000 : ((k : ℚ) * (1 / 1000)) * 1000 = (k : ℚ) := by ring
      have := hk
      field_simp at this
      linarith
    have hk3 : ((2 * k : ℤ) : ℚ) = 3 := by
      push_cast
      linarith
    have : (2 * k : ℤ) = 3 := by exact_mod_cast hk3
    omega

end MM
